import Mathlib

/-!
Verification of the export-job lifecycle and retry-orchestrator core of the
hy-aws repository.  The definitions below are a shallow embedding of the
Python handlers (create_export_job.py, process_export_job.py,
get_export_job.py, trigger_sync.py) and of the Step Functions retry state
machine declared in application_stack.py.  Managed collaborators (DynamoDB
table, SQS queue, S3 bucket, the third-party HTTP API) appear as explicit
environment records whose calls can succeed or fail; the handlers' own
control flow is translated line by line from the source.
-/

namespace HyAws

/-- A DynamoDB item of the export-jobs table.  Every attribute other than the
key is optional, mirroring DynamoDB's schemaless items: an attribute is
present (`some`) or absent (`none`).  Field names follow the attribute names
used by the handlers. -/
structure StoredJob where
  export_type : Option String := none
  format : Option String := none
  filters : Option (List (String × String)) := none
  user_id : Option String := none
  status : Option String := none
  createdAt : Option String := none
  updatedAt : Option String := none
  ttl : Option Nat := none
  s3_key : Option String := none
  download_url : Option String := none
  record_count : Option Nat := none
  error_message : Option String := none
deriving DecidableEq, Repr

/-- The export-jobs table: an association of job_id keys to items. -/
def JobStore : Type := List (String × StoredJob)

/-- Key lookup in the table (DynamoDB get_item). -/
def getItem : JobStore → String → Option StoredJob
  | [], _ => none
  | (k0, v0) :: rest, k => if k0 == k then some v0 else getItem rest k

/-- Unconditional overwrite-by-key (DynamoDB put_item, and the write-back half
of update_item). -/
def putItem : JobStore → String → StoredJob → JobStore
  | [], k, v => [(k, v)]
  | (k0, v0) :: rest, k, v =>
    if k0 == k then (k, v) :: rest else (k0, v0) :: putItem rest k v

/-- An item with no attributes: what update_item starts from when the key is
absent. -/
def emptyJob : StoredJob := {}

/-- The keyword arguments accepted by update_job_status in
process_export_job.py (lines 204-233): each one, when supplied, adds a SET
clause for the matching attribute. -/
structure UpdateKwargs where
  s3_key : Option String := none
  download_url : Option String := none
  record_count : Option Nat := none
  error_message : Option String := none
deriving DecidableEq, Repr

/-- Semantics of the UpdateExpression built by update_job_status: SET
overwrites status and updatedAt, plus each attribute named in the kwargs.
SET never removes an attribute, so attributes outside the expression keep
their old value. -/
def apply_update (old : StoredJob) (status updated : String)
    (kwargs : UpdateKwargs) : StoredJob :=
  { old with
    status := some status
    updatedAt := some updated
    s3_key := match kwargs.s3_key with | some v => some v | none => old.s3_key
    download_url :=
      match kwargs.download_url with | some v => some v | none => old.download_url
    record_count :=
      match kwargs.record_count with | some v => some v | none => old.record_count
    error_message :=
      match kwargs.error_message with | some v => some v | none => old.error_message }

/-- update_job_status of process_export_job.py (lines 204-233): an
unconditional update_item on the job's key.  DynamoDB update_item creates the
item when absent, so the base item is the stored one or an empty item. -/
def update_job_status (store : JobStore) (job_id status updated : String)
    (kwargs : UpdateKwargs) : JobStore :=
  putItem store job_id
    (apply_update ((getItem store job_id).getD emptyJob) status updated kwargs)

/-- The SQS work-item message produced by create_export_job.py (lines 78-83)
and parsed by process_export_job.py (lines 31-36).  format and filters are
optional in the parsed body (message_body.get). -/
structure WorkMessage where
  job_id : String
  export_type : String
  format : Option String := none
  filters : Option (List (String × String)) := none
deriving DecidableEq, Repr

/-- Observable side effects of a handler invocation, in program order. -/
inductive Effect where
  | getJob (job_id : String)
  | updateJob (job_id : String) (status : String) (kwargs : UpdateKwargs)
  | storePut (job_id : String) (item : StoredJob)
  | s3Put (bucket key body content_type : String)
  | presign (bucket key : String) (expires_in : Nat)
  | sqsSend (queue_url : String) (message : WorkMessage)
deriving DecidableEq, Repr

/-- Test for a job-store read effect. -/
def is_get_effect : Effect → Bool
  | Effect.getJob _ => true
  | _ => false

theorem getItem_putItem_self (store : JobStore) (k : String) (v : StoredJob) :
    getItem (putItem store k v) k = some v := by
  induction store with
  | nil => simp [putItem, getItem]
  | cons hd tl ih =>
    obtain ⟨k0, v0⟩ := hd
    by_cases h : k0 == k
    · simp [putItem, h, getItem]
    · simp [putItem, h, getItem, ih]

theorem getItem_update_self (store : JobStore) (k status updated : String)
    (kwargs : UpdateKwargs) :
    getItem (update_job_status store k status updated kwargs) k =
      some (apply_update ((getItem store k).getD emptyJob) status updated kwargs) := by
  unfold update_job_status
  exact getItem_putItem_self _ _ _

/-! ## Job Worker: process_export_job.py -/

/-- A row of the users or orders table: attribute name to string value. -/
def Row : Type := List (String × String)

/-- The scan filter export_users builds from the request filters
(process_export_job.py lines 101-118): a conjunction over the optional
status, start_date and end_date criteria. -/
structure UserScanFilter where
  status : Option String := none
  start_date : Option String := none
  end_date : Option String := none
deriving DecidableEq, Repr

/-- The scan filter export_orders builds (lines 135-157), which adds an
optional user_id criterion. -/
structure OrderScanFilter where
  status : Option String := none
  start_date : Option String := none
  end_date : Option String := none
  user_id : Option String := none
deriving DecidableEq, Repr

/-- Translation of the filter-expression construction in export_users: a key
contributes a clause exactly when present in the filters dict. -/
def build_user_filter (filters : List (String × String)) : UserScanFilter :=
  { status := filters.lookup "status"
    start_date := filters.lookup "start_date"
    end_date := filters.lookup "end_date" }

/-- Translation of the filter-expression construction in export_orders. -/
def build_order_filter (filters : List (String × String)) : OrderScanFilter :=
  { status := filters.lookup "status"
    start_date := filters.lookup "start_date"
    end_date := filters.lookup "end_date"
    user_id := filters.lookup "user_id" }

/-- The managed collaborators the worker calls into.  Scans and the S3 put can
fail (boto3 raises); the presigned-url call and the clock are total. -/
structure WorkerEnv where
  scan_users : UserScanFilter → Except String (List Row)
  scan_orders : OrderScanFilter → Except String (List Row)
  s3_put_object : String → String → String → String → Except String Unit
  generate_presigned_url : String → String → Nat → String
  now_iso : String
  now_key : String

/-- export_users (lines 97-128): build the filter and scan the users table. -/
def export_users (env : WorkerEnv) (filters : List (String × String)) :
    Except String (List Row) :=
  env.scan_users (build_user_filter filters)

/-- export_orders (lines 131-167): build the filter and scan the orders
table. -/
def export_orders (env : WorkerEnv) (filters : List (String × String)) :
    Except String (List Row) :=
  env.scan_orders (build_order_filter filters)

/-- CSV header row for a users export (line 177). -/
def users_fieldnames : List String :=
  ["user_id", "userName", "email", "fullName", "phoneNumber",
   "accountStatus", "createdAt", "updatedAt"]

/-- CSV header row for an orders export (line 180). -/
def orders_fieldnames : List String :=
  ["order_id", "user_id", "status", "total_amount",
   "payment_method", "createdAt", "updatedAt"]

/-- Minimal-quoting rule of the csv writer: a cell is quoted only when it
contains a delimiter, quote or line break, with embedded quotes doubled. -/
def csv_quote (s : String) : String :=
  if s.data.any (fun c => c == ',' || c == '"' || c == '\n' || c == '\r') then
    String.mk ('"' ::
      s.data.foldr (fun c acc => if c == '"' then '"' :: '"' :: acc else c :: acc) ['"'])
  else s

/-- One csv line: comma-separated cells and the writer's CRLF terminator. -/
def csv_line (cells : List String) : String :=
  String.intercalate "," (cells.map csv_quote) ++ "\r\n"

/-- generate_csv (lines 170-197): empty data yields the empty string;
otherwise the per-type header then one line per item, missing attributes
rendered as empty cells. -/
def generate_csv (data : List Row) (export_type : String) : String :=
  match data with
  | [] => ""
  | first :: _ =>
    let fieldnames :=
      if export_type == "users" then users_fieldnames
      else if export_type == "orders" then orders_fieldnames
      else first.map Prod.fst
    csv_line fieldnames ++
      String.join (data.map (fun item =>
        csv_line (fieldnames.map (fun k => (item.lookup k).getD ""))))

/-- Escaping for string values in the JSON dump. -/
def json_escape (s : String) : String :=
  String.mk (s.data.foldr
    (fun c acc =>
      if c == '"' then '\\' :: '"' :: acc
      else if c == '\\' then '\\' :: '\\' :: acc
      else c :: acc) [])

/-- One key-value pair of a dumped object, at the two-space indent used by
json.dumps(data, indent=2). -/
def json_field (kv : String × String) : String :=
  "    \"" ++ json_escape kv.fst ++ "\": \"" ++ json_escape kv.snd ++ "\""

/-- One dumped object. -/
def json_obj (r : Row) : String :=
  "  \x7b\n" ++ String.intercalate ",\n" (r.map json_field) ++ "\n  \x7d"

/-- generate_json (lines 200-201): json.dumps of the item list. -/
def generate_json (data : List Row) : String :=
  match data with
  | [] => "[]"
  | _ => "[\n" ++ String.intercalate ",\n" (data.map json_obj) ++ "\n]"

/-- Bucket name the worker writes artifacts to (REPORTS_BUCKET). -/
def reports_bucket : String := "REPORTS_BUCKET"

/-- Queue url the producer enqueues to (EXPORT_JOBS_QUEUE_URL). -/
def export_jobs_queue_url : String := "EXPORT_JOBS_QUEUE_URL"

/-- Presign ttl for the download url: 7 days in seconds (line 72). -/
def presign_expiry : Nat := 7 * 24 * 60 * 60

/-- The body of the worker's inner try (lines 42-73): pick the export by
type (an unknown type raises ValueError), pick the serializer by format
(csv exactly when the format equals "csv", otherwise json), build the S3
key, upload, and presign.  Returns the data, key, content type, file
content and download url, or the raised error's message. -/
def run_export (env : WorkerEnv) (job_id export_type export_format : String)
    (filters : List (String × String)) :
    Except String (List Row × String × String × String × String) := do
  let data ←
    if export_type == "users" then export_users env filters
    else if export_type == "orders" then export_orders env filters
    else Except.error ("Unknown export type: " ++ export_type)
  let gen :=
    if export_format == "csv" then (generate_csv data export_type, "text/csv", "csv")
    else (generate_json data, "application/json", "json")
  let s3_key :=
    "exports/" ++ export_type ++ "/" ++ job_id ++ "_" ++ env.now_key ++ "." ++ gen.2.2
  let _ ← env.s3_put_object reports_bucket s3_key gen.1 gen.2.1
  let download_url := env.generate_presigned_url reports_bucket s3_key presign_expiry
  Except.ok (data, s3_key, gen.2.1, gen.1, download_url)

/-- Outcome of handling one queue record: the store afterwards, the effects
in program order, and the exception (if any) that propagates out of the
record's iteration of the loop. -/
structure RecordOutcome where
  store : JobStore
  trace : List Effect
  err : Option String

/-- One iteration of the worker's record loop (lines 30-88): parse the
message (format defaults to csv, filters to empty), unconditionally move the
job to processing, run the export; on success move the job to completed with
the artifact fields, on exception move it to failed with the error message
and re-raise. -/
def process_record (env : WorkerEnv) (store : JobStore) (msg : WorkMessage) :
    RecordOutcome :=
  let job_id := msg.job_id
  let export_type := msg.export_type
  let export_format := msg.format.getD "csv"
  let filters := msg.filters.getD []
  let store1 := update_job_status store job_id "processing" env.now_iso {}
  match run_export env job_id export_type export_format filters with
  | Except.ok (data, s3_key, content_type, file_content, download_url) =>
    let kwargs : UpdateKwargs :=
      { s3_key := some s3_key
        download_url := some download_url
        record_count := some data.length }
    { store := update_job_status store1 job_id "completed" env.now_iso kwargs
      trace := Effect.updateJob job_id "processing" {} ::
        Effect.s3Put reports_bucket s3_key file_content content_type ::
        Effect.presign reports_bucket s3_key presign_expiry ::
        [Effect.updateJob job_id "completed" kwargs]
      err := none }
  | Except.error e =>
    let kwargs : UpdateKwargs := { error_message := some e }
    { store := update_job_status store1 job_id "failed" env.now_iso kwargs
      trace := Effect.updateJob job_id "processing" {} ::
        [Effect.updateJob job_id "failed" kwargs]
      err := some e }

/-- The worker's record loop (lines 30-88): records are handled in delivery
order, and the first re-raised exception aborts the loop (the source
re-raises inside the for, so later records are not reached). -/
def process_records (env : WorkerEnv) :
    JobStore → List WorkMessage → JobStore × List Effect × Option String
  | store, [] => (store, [], none)
  | store, msg :: rest =>
    let r := process_record env store msg
    match r.err with
    | some e => (r.store, r.trace, some e)
    | none =>
      let rest_result := process_records env r.store rest
      (rest_result.1, r.trace ++ rest_result.2.1, rest_result.2.2)

/-- Result of one worker invocation. -/
structure WorkerResult where
  store : JobStore
  trace : List Effect
  outcome : Except String Nat

/-- The worker handler (lines 28-94): process the batch; if any record's
exception propagated, the outer handler re-raises it, otherwise it returns
statusCode 200.  No batchItemFailures response is built. -/
def worker_handler (env : WorkerEnv) (store : JobStore)
    (records : List WorkMessage) : WorkerResult :=
  match process_records env store records with
  | (s, t, none) => { store := s, trace := t, outcome := Except.ok 200 }
  | (s, t, some e) => { store := s, trace := t, outcome := Except.error e }

/-- Delivery-channel contract for a batch invocation with partial batch
responses enabled (the SqsEventSource of application_stack.py lines 365-372
sets report_batch_item_failures): when the invocation raises, every delivery
of the batch is negatively acknowledged; when it returns a response with no
batchItemFailures entries, every delivery is acknowledged.  Deliveries are
identified here by the job_id they carry. -/
def failed_deliveries (records : List WorkMessage)
    (outcome : Except String Nat) : List String :=
  match outcome with
  | Except.error _ => records.map (fun m => m.job_id)
  | Except.ok _ => []

/-! ## Job Producer: create_export_job.py -/

/-- The parsed creation request body (lines 37-40): every field read with
body.get, so every field is optional. -/
structure CreateRequest where
  export_type : Option String := none
  filters : Option (List (String × String)) := none
  format : Option String := none
  user_id : Option String := none
deriving DecidableEq, Repr

/-- Collaborators and ambient values of one producer invocation: the fresh
uuid, the clock, and whether the DynamoDB put and the SQS send succeed. -/
structure ProducerEnv where
  job_id : String
  now_iso : String
  now_epoch : Nat
  put_result : Except String Unit
  send_result : Except String Unit

/-- Projection of the producer's HTTP response onto the fields the handler
writes (lines 44-50, 90-103, 105-114). -/
structure CreateResponse where
  statusCode : Nat
  job_id : Option String := none
  status : Option String := none
  export_type : Option String := none
  createdAt : Option String := none
  error : Option String := none
deriving DecidableEq, Repr

/-- The producer handler (lines 17-114): validate export_type against the
closed enumeration, build the pending job record (ttl 30 days ahead), put it
to the job store, then enqueue the work item, then return 202; a put or send
exception yields the 500 response instead. -/
def create_export_job_handler (env : ProducerEnv) (store : JobStore)
    (body : CreateRequest) : JobStore × List Effect × CreateResponse :=
  let filters := body.filters.getD []
  let export_format := body.format.getD "csv"
  match body.export_type with
  | none =>
    (store, [],
     { statusCode := 400, error := some "Invalid export_type. Must be \"users\" or \"orders\"" })
  | some et =>
    if et == "users" || et == "orders" then
      let job_id := env.job_id
      let timestamp := env.now_iso
      let ttl := env.now_epoch + 30 * 24 * 60 * 60
      let base : StoredJob :=
        { export_type := some et
          format := some export_format
          filters := some filters
          status := some "pending"
          createdAt := some timestamp
          updatedAt := some timestamp
          ttl := some ttl }
      let job_item :=
        match body.user_id with
        | some u => { base with user_id := some u }
        | none => base
      match env.put_result with
      | Except.error _ =>
        (store, [], { statusCode := 500, error := some "Failed to create export job" })
      | Except.ok _ =>
        let store1 := putItem store job_id job_item
        let message_body : WorkMessage :=
          { job_id := job_id, export_type := et
            format := some export_format, filters := some filters }
        match env.send_result with
        | Except.error _ =>
          (store1, [Effect.storePut job_id job_item],
           { statusCode := 500, error := some "Failed to create export job" })
        | Except.ok _ =>
          (store1,
           [Effect.storePut job_id job_item,
            Effect.sqsSend export_jobs_queue_url message_body],
           { statusCode := 202, job_id := some job_id, status := some "pending"
             export_type := some et, createdAt := some timestamp })
    else
      (store, [],
       { statusCode := 400, error := some "Invalid export_type. Must be \"users\" or \"orders\"" })

/-! ## Job Status Reader: get_export_job.py -/

/-- Projection of the reader's response body onto the fields the handler
writes.  An outer some marks a key present in the body; for download_url and
s3_key the inner option carries the possibly-null stored value (job.get). -/
structure GetJobResponse where
  statusCode : Nat
  job_id : Option String := none
  export_type : Option String := none
  format : Option String := none
  status : Option String := none
  createdAt : Option String := none
  updatedAt : Option String := none
  download_url : Option (Option String) := none
  record_count : Option Nat := none
  s3_key : Option (Option String) := none
  error_message : Option String := none
  error : Option String := none
deriving DecidableEq, Repr

/-- The 500 response the reader's outer except builds (lines 109-125) when
building the result raises — here, when one of the directly indexed
attributes is absent (KeyError). -/
def get_job_error_response : GetJobResponse :=
  { statusCode := 500, error := some "Failed to get export job" }

/-- The get-by-id path of the reader handler (lines 44-107): 400 when the
jobId path parameter is missing, 404 when the store has no item for it.
The result dict indexes job's export_type, status, createdAt and updatedAt
directly (lines 81-88, in that evaluation order), so if the stored item
lacks one of them the KeyError propagates to the outer except and the
response is the 500 outcome; format uses job.get with default csv.  With
the base attributes present the response is the 200 projection: the base
fields always, the artifact fields when the status is completed, the error
detail when it is failed.  The only effect on any path is the get_item
read. -/
def get_export_job_handler (store : JobStore) (jobId : Option String) :
    List Effect × GetJobResponse :=
  match jobId with
  | none => ([], { statusCode := 400, error := some "Missing jobId parameter" })
  | some job_id =>
    match getItem store job_id with
    | none =>
      ([Effect.getJob job_id],
       { statusCode := 404, error := some "Export job not found" })
    | some job =>
      match job.export_type with
      | none => ([Effect.getJob job_id], get_job_error_response)
      | some et =>
        match job.status with
        | none => ([Effect.getJob job_id], get_job_error_response)
        | some st =>
          match job.createdAt with
          | none => ([Effect.getJob job_id], get_job_error_response)
          | some ca =>
            match job.updatedAt with
            | none => ([Effect.getJob job_id], get_job_error_response)
            | some ua =>
              let result : GetJobResponse :=
                { statusCode := 200
                  job_id := some job_id
                  export_type := some et
                  format := some (job.format.getD "csv")
                  status := some st
                  createdAt := some ca
                  updatedAt := some ua }
              let result :=
                if job.status == some "completed" then
                  { result with
                    download_url := some job.download_url
                    record_count := some (job.record_count.getD 0)
                    s3_key := some job.s3_key }
                else result
              let result :=
                if job.status == some "failed" then
                  { result with
                    error_message := some (job.error_message.getD "Unknown error") }
                else result
              ([Effect.getJob job_id], result)

/-! ## Retry Orchestrator: the Step Functions state machine of
application_stack.py (lines 245-318) and its trigger (trigger_sync.py) -/

/-- The execution state threaded through the state machine: the payload the
LambdaInvoke task builds and the Pass state rebuilds. -/
structure SyncState where
  resource_type : String
  limit : Int
  attempt : Int
deriving DecidableEq, Repr

/-- Projection of the sync task's returned payload onto the fields the
handlers return (sync_third_party_with_retry.py lines 112-121, 129-137,
144-152, 185-193). -/
structure SyncResult where
  statusCode : Nat
  success : Bool
  error : Option String := none
  message : String
  should_retry : Bool
deriving DecidableEq, Repr

/-- The success payload of the sync task (lines 112-121). -/
def success_result (synced_count : Nat) (resource_type : String) : SyncResult :=
  { statusCode := 200
    success := true
    error := none
    message := "Successfully synced " ++ toString synced_count ++ " " ++ resource_type
    should_retry := false }

/-- The payload of the ThirdPartyAPIError branch (lines 129-137): a retryable
failure. -/
def third_party_error_result (msg : String) : SyncResult :=
  { statusCode := 500
    success := false
    error := some "ThirdPartyAPIError"
    message := msg
    should_retry := true }

/-- The payload of the ValueError branch (lines 144-152): a non-retryable
validation failure. -/
def validation_error_result (msg : String) : SyncResult :=
  { statusCode := 400
    success := false
    error := some "ValidationError"
    message := msg
    should_retry := false }

/-- The CheckSyncSuccess choice (line 295): boolean_equals on
syncResult.Payload.success and true. -/
def check_sync_success (r : SyncResult) : Bool :=
  r.success == true

/-- The IncrementAttempt pass state (lines 266-274): attempt becomes
attempt plus one, resource_type and limit pass through. -/
def increment_attempt (s : SyncState) : SyncState :=
  { resource_type := s.resource_type, limit := s.limit, attempt := s.attempt + 1 }

/-- The CheckRetryLimit choice (line 302): number_less_than on attempt
and 4. -/
def check_retry_limit (s : SyncState) : Bool :=
  s.attempt < 4

/-- The WaitBeforeRetry state's fixed duration (line 279), in seconds. -/
def wait_before_retry_seconds : Nat := 30

/-- The cause of the terminal MaxRetriesReached fail state (line 285). -/
def max_retries_cause : String := "Maximum retry attempts reached"

/-- The error code of the terminal MaxRetriesReached fail state (line 286). -/
def max_retries_error : String := "ThirdPartySyncFailed"

/-- Observable events of one orchestrator execution: each task invocation
(tagged with the attempt value it is invoked with) and each wait. -/
inductive SfnEvent where
  | invoke (attempt : Int)
  | wait (seconds : Nat)
deriving DecidableEq, Repr

/-- Terminal states of the state machine. -/
inductive SfnTerminal where
  | succeeded
  | failed (cause : String) (error : String)
deriving DecidableEq, Repr

/-- Runs the state-machine definition (lines 291-309) from a state: invoke
the task, branch on success, otherwise increment the attempt and either wait
then loop or fail.  The fuel bounds the unrolling; none means the fuel ran
out, which never happens for fuel past the attempt cap. -/
def runFrom (task : SyncState → SyncResult) :
    Nat → SyncState → Option (List SfnEvent × SfnTerminal)
  | 0, _ => none
  | Nat.succ fuel, s =>
    if check_sync_success (task s) then
      some ([SfnEvent.invoke s.attempt], SfnTerminal.succeeded)
    else
      let s2 := increment_attempt s
      if check_retry_limit s2 then
        (runFrom task fuel s2).map (fun p =>
          (SfnEvent.invoke s.attempt ::
             SfnEvent.wait wait_before_retry_seconds :: p.fst, p.snd))
      else
        some ([SfnEvent.invoke s.attempt],
              SfnTerminal.failed max_retries_cause max_retries_error)

/-- The attempt values of the invocations of a trace, in order. -/
def invocations (tr : List SfnEvent) : List Int :=
  tr.filterMap (fun e =>
    match e with
    | SfnEvent.invoke a => some a
    | SfnEvent.wait _ => none)

/-- The execution input built by the trigger (trigger_sync.py lines 55-59):
the initial attempt is 1. -/
def execution_input (resource_type : String) (limit : Int) : SyncState :=
  { resource_type := resource_type, limit := limit, attempt := 1 }

/-- Checks a trace is a run of alternating invocations and fixed 30-second
waits: every re-invocation is immediately preceded by a wait of exactly
wait_before_retry_seconds. -/
def wait_precedes_reinvoke : List SfnEvent → Bool
  | [] => true
  | [SfnEvent.invoke _] => true
  | SfnEvent.invoke _ :: SfnEvent.wait w :: rest =>
    (w == wait_before_retry_seconds) && wait_precedes_reinvoke rest
  | _ => false

/-- A task that always reports a retryable failure. -/
def alwaysFailTask : SyncState → SyncResult :=
  fun _ => third_party_error_result "API request timed out after 10 seconds"

/-- A task that fails on attempts 1 and 2 and succeeds on attempt 3. -/
def succeedOnThirdTask : SyncState → SyncResult :=
  fun s =>
    if s.attempt == 3 then success_result 10 s.resource_type
    else third_party_error_result "Failed to connect to API"

/-! ## Concrete fixtures for the worker scenarios -/

/-- A single users-table row for the concrete scenarios. -/
def rows_users : List Row :=
  [[("user_id", "u1"), ("userName", "alice"), ("createdAt", "2024-01-02")]]

/-- An environment where every collaborator call succeeds. -/
def env_ok : WorkerEnv :=
  { scan_users := fun _ => Except.ok rows_users
    scan_orders := fun _ => Except.ok []
    s3_put_object := fun _ _ _ _ => Except.ok ()
    generate_presigned_url := fun _ k _ => "https://signed/" ++ k
    now_iso := "2026-01-01T00:00:00+00:00"
    now_key := "20260101_000000" }

/-- An environment where the users-table scan raises. -/
def env_fail : WorkerEnv :=
  { env_ok with scan_users := fun _ => Except.error "boom" }

/-- A freshly created pending job record, as the producer writes it. -/
def pendingJob : StoredJob :=
  { export_type := some "users", format := some "csv", filters := some []
    status := some "pending", createdAt := some "T0", updatedAt := some "T0"
    ttl := some 100 }

/-- A job record already in the terminal completed state. -/
def completedJob : StoredJob :=
  { pendingJob with
    status := some "completed"
    s3_key := some "exports/users/j1_20251231_000000.csv"
    download_url := some "https://signed/old"
    record_count := some 7 }

/-- A stored record whose authoritative format is json. -/
def jsonFormatJob : StoredJob := { pendingJob with format := some "json" }

/-- A work item for job j1 with no format field (the message default
applies). -/
def msg_users : WorkMessage := { job_id := "j1", export_type := "users" }

/-- A work item carrying an unrecognized format value. -/
def msg_xml : WorkMessage :=
  { job_id := "j1", export_type := "users", format := some "xml" }

/-- A store holding only the pending job j1. -/
def store_pending1 : JobStore := [("j1", pendingJob)]

/-- A store holding j1 in the terminal completed state. -/
def store_completed1 : JobStore := [("j1", completedJob)]

/-- A store where j1's authoritative record says format json. -/
def store_json1 : JobStore := [("j1", jsonFormatJob)]

/-- A three-job store for the batch scenario. -/
def store3 : JobStore :=
  [("j1", pendingJob), ("j2", { pendingJob with export_type := some "bogus" }),
   ("j3", pendingJob)]

/-- A batch of three work items whose second item raises during the export
step (its export type is not in the closed enumeration). -/
def batch3 : List WorkMessage :=
  [{ job_id := "j1", export_type := "users" },
   { job_id := "j2", export_type := "bogus" },
   { job_id := "j3", export_type := "users" }]

/-! ## Helper lemmas about the orchestrator run -/

theorem runFrom_succ (task : SyncState → SyncResult) (fuel : Nat) (s : SyncState) :
    runFrom task (Nat.succ fuel) s =
      if check_sync_success (task s) then
        some ([SfnEvent.invoke s.attempt], SfnTerminal.succeeded)
      else if check_retry_limit (increment_attempt s) then
        (runFrom task fuel (increment_attempt s)).map (fun p =>
          (SfnEvent.invoke s.attempt ::
             SfnEvent.wait wait_before_retry_seconds :: p.fst, p.snd))
      else
        some ([SfnEvent.invoke s.attempt],
              SfnTerminal.failed max_retries_cause max_retries_error) := rfl

theorem runFrom_congr (t1 t2 : SyncState → SyncResult)
    (h : ∀ s, (t1 s).success = (t2 s).success) :
    ∀ fuel s, runFrom t1 fuel s = runFrom t2 fuel s := by
  intro fuel
  induction fuel with
  | zero => intro s; rfl
  | succ n ih =>
    intro s
    rw [runFrom_succ, runFrom_succ]
    simp only [check_sync_success, h s, ih]

theorem runFrom_wait_ok (task : SyncState → SyncResult) :
    ∀ (fuel : Nat) (s : SyncState) (tr : List SfnEvent) (t : SfnTerminal),
      runFrom task fuel s = some (tr, t) → wait_precedes_reinvoke tr = true := by
  intro fuel
  induction fuel with
  | zero => intro s tr t h; simp [runFrom] at h
  | succ n ih =>
    intro s tr t h
    rw [runFrom_succ] at h
    by_cases hs : check_sync_success (task s)
    · rw [if_pos hs] at h
      simp only [Option.some.injEq, Prod.mk.injEq] at h
      obtain ⟨htr, _⟩ := h
      subst htr
      rfl
    · rw [if_neg hs] at h
      by_cases hl : check_retry_limit (increment_attempt s)
      · rw [if_pos hl] at h
        cases hrec : runFrom task n (increment_attempt s) with
        | none => rw [hrec] at h; simp at h
        | some p =>
          rw [hrec] at h
          simp only [Option.map_some', Option.some.injEq, Prod.mk.injEq] at h
          obtain ⟨htr, _⟩ := h
          subst htr
          have hp : wait_precedes_reinvoke p.fst = true :=
            ih (increment_attempt s) p.fst p.snd (by rw [hrec])
          simp [wait_precedes_reinvoke, hp]
      · rw [if_neg hl] at h
        simp only [Option.some.injEq, Prod.mk.injEq] at h
        obtain ⟨htr, _⟩ := h
        subst htr
        rfl

theorem runFrom_failed_fixed (task : SyncState → SyncResult) :
    ∀ (fuel : Nat) (s : SyncState) (tr : List SfnEvent) (c er : String),
      runFrom task fuel s = some (tr, SfnTerminal.failed c er) →
        c = max_retries_cause ∧ er = max_retries_error := by
  intro fuel
  induction fuel with
  | zero => intro s tr c er h; simp [runFrom] at h
  | succ n ih =>
    intro s tr c er h
    rw [runFrom_succ] at h
    by_cases hs : check_sync_success (task s)
    · rw [if_pos hs] at h
      simp at h
    · rw [if_neg hs] at h
      by_cases hl : check_retry_limit (increment_attempt s)
      · rw [if_pos hl] at h
        cases hrec : runFrom task n (increment_attempt s) with
        | none => rw [hrec] at h; simp at h
        | some p =>
          rw [hrec] at h
          simp only [Option.map_some', Option.some.injEq, Prod.mk.injEq] at h
          obtain ⟨_, hterm⟩ := h
          exact ih (increment_attempt s) p.fst c er (by rw [hrec, ← hterm])
      · rw [if_neg hl] at h
        simp only [Option.some.injEq, Prod.mk.injEq, SfnTerminal.failed.injEq] at h
        obtain ⟨_, hc, her⟩ := h
        exact ⟨hc.symm, her.symm⟩

/-! ## Claim C1 -/

/-- C1 counterexample: started from the trigger's initial input (attempt 1)
against a sync task that always reports success false, the orchestrator
performs exactly 3 invocations, at attempts 1, 2 and 3, before reaching the
terminal failure state — not the 4 invocations (attempts 1 through 4) the
claim states. -/
theorem c1_retry_cap_counterexample :
    (runFrom alwaysFailTask 8 (execution_input "posts" 10)).map
      (fun p => invocations p.fst) = some [1, 2, 3] ∧
    (runFrom alwaysFailTask 8 (execution_input "posts" 10)).map
      (fun p => (invocations p.fst).length) ≠ some 4 ∧
    (runFrom alwaysFailTask 8 (execution_input "posts" 10)).map Prod.snd =
      some (SfnTerminal.failed max_retries_cause max_retries_error) := by
  decide

/-- C1 (amended): for every orchestrator execution started with the trigger's
initial input (attempt 1), against a sync task that always reports success
false the orchestrator performs exactly 3 invocations (attempts 1, 2 and 3)
and then reaches the terminal failure state; against a task that first
reports success true on attempt 3, exactly 3 invocations occur and then the
terminal success state is reached. -/
theorem c1_retry_cap_amended (rt : String) (lim : Int)
    (task : SyncState → SyncResult) :
    ((∀ s, (task s).success = false) →
      (runFrom task 8 (execution_input rt lim)).map (fun p => invocations p.fst) =
        some [1, 2, 3] ∧
      (runFrom task 8 (execution_input rt lim)).map Prod.snd =
        some (SfnTerminal.failed max_retries_cause max_retries_error)) ∧
    ((task { resource_type := rt, limit := lim, attempt := 1 }).success = false →
     (task { resource_type := rt, limit := lim, attempt := 2 }).success = false →
     (task { resource_type := rt, limit := lim, attempt := 3 }).success = true →
      (runFrom task 8 (execution_input rt lim)).map (fun p => invocations p.fst) =
        some [1, 2, 3] ∧
      (runFrom task 8 (execution_input rt lim)).map Prod.snd =
        some SfnTerminal.succeeded) := by
  constructor
  · intro h
    have e3 : runFrom task (Nat.succ 5)
        { resource_type := rt, limit := lim, attempt := (3 : Int) } =
        some ([SfnEvent.invoke 3],
              SfnTerminal.failed max_retries_cause max_retries_error) := by
      rw [runFrom_succ]
      simp [check_sync_success, h, check_retry_limit, increment_attempt]
    have e2 : runFrom task (Nat.succ (Nat.succ 5))
        { resource_type := rt, limit := lim, attempt := (2 : Int) } =
        some ([SfnEvent.invoke 2, SfnEvent.wait wait_before_retry_seconds,
               SfnEvent.invoke 3],
              SfnTerminal.failed max_retries_cause max_retries_error) := by
      rw [runFrom_succ]
      simp [check_sync_success, h, check_retry_limit, increment_attempt, e3]
    have e1 : runFrom task 8 (execution_input rt lim) =
        some ([SfnEvent.invoke 1, SfnEvent.wait wait_before_retry_seconds,
               SfnEvent.invoke 2, SfnEvent.wait wait_before_retry_seconds,
               SfnEvent.invoke 3],
              SfnTerminal.failed max_retries_cause max_retries_error) := by
      rw [show (8 : Nat) = Nat.succ (Nat.succ (Nat.succ 5)) from rfl,
          execution_input, runFrom_succ]
      simp [check_sync_success, h, check_retry_limit, increment_attempt, e2]
    rw [e1]
    exact ⟨rfl, rfl⟩
  · intro h1 h2 h3
    have e3 : runFrom task (Nat.succ 5)
        { resource_type := rt, limit := lim, attempt := (3 : Int) } =
        some ([SfnEvent.invoke 3], SfnTerminal.succeeded) := by
      rw [runFrom_succ]
      simp [check_sync_success, h3]
    have e2 : runFrom task (Nat.succ (Nat.succ 5))
        { resource_type := rt, limit := lim, attempt := (2 : Int) } =
        some ([SfnEvent.invoke 2, SfnEvent.wait wait_before_retry_seconds,
               SfnEvent.invoke 3], SfnTerminal.succeeded) := by
      rw [runFrom_succ]
      simp [check_sync_success, h2, check_retry_limit, increment_attempt, e3]
    have e1 : runFrom task 8 (execution_input rt lim) =
        some ([SfnEvent.invoke 1, SfnEvent.wait wait_before_retry_seconds,
               SfnEvent.invoke 2, SfnEvent.wait wait_before_retry_seconds,
               SfnEvent.invoke 3], SfnTerminal.succeeded) := by
      rw [show (8 : Nat) = Nat.succ (Nat.succ (Nat.succ 5)) from rfl,
          execution_input, runFrom_succ]
      simp [check_sync_success, h1, check_retry_limit, increment_attempt, e2]
    rw [e1]
    exact ⟨rfl, rfl⟩

/-- C1 witness: the amended theorem instantiated at the always-failing task
and at the succeed-on-attempt-3 task. -/
theorem c1_retry_cap_witness :
    (runFrom alwaysFailTask 8 (execution_input "posts" 10)).map
      (fun p => invocations p.fst) = some [1, 2, 3] ∧
    (runFrom succeedOnThirdTask 8 (execution_input "posts" 10)).map Prod.snd =
      some SfnTerminal.succeeded :=
  ⟨((c1_retry_cap_amended "posts" 10 alwaysFailTask).1 (fun _ => rfl)).1,
   ((c1_retry_cap_amended "posts" 10 succeedOnThirdTask).2 rfl rfl rfl).2⟩

/-! ## Claim C5 -/

/-- C5: the CheckSyncSuccess branch inspects only the boolean success field
of the task's result and never the should_retry classification: two results
agreeing on success branch identically, two tasks agreeing pointwise on
success produce identical executions, and concretely a task always
returning the non-retryable validation-error payload (should_retry false)
is retried by the graph exactly as a task always returning the retryable
third-party-error payload (should_retry true). -/
theorem c5_branch_ignores_retry_classification :
    (∀ r1 r2 : SyncResult, r1.success = r2.success →
      check_sync_success r1 = check_sync_success r2) ∧
    (∀ t1 t2 : SyncState → SyncResult, (∀ s, (t1 s).success = (t2 s).success) →
      ∀ fuel s, runFrom t1 fuel s = runFrom t2 fuel s) ∧
    ((validation_error_result "Invalid resource type: bogus").should_retry = false ∧
     (third_party_error_result "API rate limit exceeded").should_retry = true ∧
     runFrom (fun _ => validation_error_result "Invalid resource type: bogus") 8
        (execution_input "bogus" 10) =
       runFrom (fun _ => third_party_error_result "API rate limit exceeded") 8
        (execution_input "bogus" 10)) := by
  refine ⟨?_, runFrom_congr, rfl, rfl, by decide⟩
  intro r1 r2 h
  simp [check_sync_success, h]

/-- C5 witness: the pointwise-congruence component applied to two concrete
tasks that differ in should_retry but agree on success. -/
theorem c5_branch_witness :
    runFrom (fun _ => validation_error_result "v") 3 (execution_input "posts" 10) =
      runFrom (fun _ => third_party_error_result "t") 3 (execution_input "posts" 10) :=
  c5_branch_ignores_retry_classification.2.1 _ _ (fun _ => rfl) 3
    (execution_input "posts" 10)

/-! ## Claim C8 -/

/-- C8: IncrementAttempt is a pure transform setting attempt to attempt + 1
and passing resource_type and limit through unchanged; the retry path's wait
is the fixed 30-second interval and occurs immediately before every
re-invocation in any execution trace; and any terminal failure carries the
fixed cause "Maximum retry attempts reached" and error code
"ThirdPartySyncFailed". -/
theorem c8_retry_frame :
    (∀ s : SyncState, increment_attempt s =
      { resource_type := s.resource_type, limit := s.limit,
        attempt := s.attempt + 1 }) ∧
    wait_before_retry_seconds = 30 ∧
    max_retries_cause = "Maximum retry attempts reached" ∧
    max_retries_error = "ThirdPartySyncFailed" ∧
    (∀ (task : SyncState → SyncResult) (fuel : Nat) (s : SyncState)
       (tr : List SfnEvent) (t : SfnTerminal),
      runFrom task fuel s = some (tr, t) →
        wait_precedes_reinvoke tr = true ∧
        ∀ c er, t = SfnTerminal.failed c er →
          c = max_retries_cause ∧ er = max_retries_error) := by
  refine ⟨fun s => rfl, rfl, rfl, rfl, ?_⟩
  intro task fuel s tr t h
  refine ⟨runFrom_wait_ok task fuel s tr t h, ?_⟩
  intro c er ht
  subst ht
  exact runFrom_failed_fixed task fuel s tr c er h

/-- C8 witness: the trace property instantiated on a concrete exhausted
execution. -/
theorem c8_retry_frame_witness :
    wait_precedes_reinvoke
      [SfnEvent.invoke 1, SfnEvent.wait wait_before_retry_seconds,
       SfnEvent.invoke 2, SfnEvent.wait wait_before_retry_seconds,
       SfnEvent.invoke 3] = true :=
  (c8_retry_frame.2.2.2.2 alwaysFailTask 8 (execution_input "posts" 10)
    [SfnEvent.invoke 1, SfnEvent.wait wait_before_retry_seconds,
     SfnEvent.invoke 2, SfnEvent.wait wait_before_retry_seconds,
     SfnEvent.invoke 3]
    (SfnTerminal.failed max_retries_cause max_retries_error) (by decide)).1

/-! ## Claim C2 -/

/-- C2 (code bug): on the batch of three work items whose second item raises
during export, the worker completes item 1 and fails item 2's job, but the
re-raise inside the record loop aborts the invocation before item 3 is
processed (its job stays pending), and because the handler raises without
returning a partial-batch response, every delivery of the batch — not only
item 2's — is reported failed to the delivery channel. -/
theorem c2_batch_abort_bug :
    (getItem (worker_handler env_ok store3 batch3).store "j1").map
      (fun j => j.status) = some (some "completed") ∧
    (getItem (worker_handler env_ok store3 batch3).store "j2").map
      (fun j => (j.status, j.error_message)) =
      some (some "failed", some "Unknown export type: bogus") ∧
    (getItem (worker_handler env_ok store3 batch3).store "j3").map
      (fun j => j.status) = some (some "pending") ∧
    (match (worker_handler env_ok store3 batch3).outcome with
     | Except.error e => some e
     | Except.ok _ => none) = some "Unknown export type: bogus" ∧
    failed_deliveries batch3 (worker_handler env_ok store3 batch3).outcome =
      ["j1", "j2", "j3"] := by
  decide

/-! ## Claim C3 -/

/-- C3 counterexample: a redelivered work item whose job_id refers to a job
already in the terminal completed state is not left unchanged: the worker
moves the record back to processing and overwrites it. -/
theorem c3_monotone_counterexample :
    (process_record env_ok store_completed1 msg_users).trace.head? =
      some (Effect.updateJob "j1" "processing" {}) ∧
    getItem (process_record env_ok store_completed1 msg_users).store "j1" ≠
      some completedJob := by
  decide

/-- C3 (amended): job state transitions are applied unconditionally, with no
terminal-state guard: for every work item, whatever the stored record's
current state (a terminal state included), the worker's first effect moves
the job to processing, and the stored record is then overwritten to a fresh
terminal value derived from the old record by the processing update followed
by the completed or failed update. -/
theorem c3_unconditional_transition (env : WorkerEnv) (store : JobStore)
    (msg : WorkMessage) :
    (process_record env store msg).trace.head? =
      some (Effect.updateJob msg.job_id "processing" {}) ∧
    ((process_record env store msg).err = none →
      ∃ kw, getItem (process_record env store msg).store msg.job_id =
        some (apply_update
          (apply_update ((getItem store msg.job_id).getD emptyJob)
            "processing" env.now_iso {})
          "completed" env.now_iso kw)) ∧
    (∀ e, (process_record env store msg).err = some e →
      getItem (process_record env store msg).store msg.job_id =
        some (apply_update
          (apply_update ((getItem store msg.job_id).getD emptyJob)
            "processing" env.now_iso {})
          "failed" env.now_iso { error_message := some e })) := by
  cases hrun : run_export env msg.job_id msg.export_type
      (msg.format.getD "csv") (msg.filters.getD []) with
  | ok v =>
    obtain ⟨data, s3_key, content_type, file_content, download_url⟩ := v
    refine ⟨by simp [process_record, hrun], ?_, ?_⟩
    · intro _
      refine ⟨{ s3_key := some s3_key, download_url := some download_url,
                record_count := some data.length }, ?_⟩
      simp only [process_record, hrun]
      rw [getItem_update_self, getItem_update_self]
      simp [update_job_status]
    · intro e he
      simp [process_record, hrun] at he
  | error e0 =>
    refine ⟨by simp [process_record, hrun], ?_, ?_⟩
    · intro hnone
      simp [process_record, hrun] at hnone
    · intro e he
      have he0 : e0 = e := by simpa [process_record, hrun] using he
      subst he0
      simp only [process_record, hrun]
      rw [getItem_update_self, getItem_update_self]
      simp [update_job_status]

/-- C3 witness: the amended theorem applied to a redelivered item for the
terminally completed job j1 whose reprocessing fails. -/
theorem c3_unconditional_witness :
    getItem (process_record env_fail store_completed1 msg_users).store "j1" =
      some (apply_update
        (apply_update ((getItem store_completed1 "j1").getD emptyJob)
          "processing" env_fail.now_iso {})
        "failed" env_fail.now_iso { error_message := some "boom" }) :=
  (c3_unconditional_transition env_fail store_completed1 msg_users).2.2 "boom"
    (by decide)

/-! ## Claim C7 -/

/-- C7 counterexample: processing a work item for a stored record whose
authoritative format is json, carried by a message without a format field,
the worker performs no job-store read at all and exports text/csv — it acts
solely on the message fields, never re-reading the authoritative record. -/
theorem c7_no_reread_counterexample :
    (process_record env_ok store_json1 msg_users).trace.any is_get_effect =
      false ∧
    (process_record env_ok store_json1 msg_users).trace.any
      (fun e =>
        match e with
        | Effect.s3Put _ _ _ ct => ct == "text/csv"
        | _ => false) = true := by
  decide

/-- C7 (amended): the worker acts solely on the fields carried in the queue
message and never reads the job store: its effect trace and propagated error
are identical for any two store contents, and the trace contains no job-store
read effect. -/
theorem c7_message_only (env : WorkerEnv) (store1 store2 : JobStore)
    (msg : WorkMessage) :
    (process_record env store1 msg).trace = (process_record env store2 msg).trace ∧
    (process_record env store1 msg).err = (process_record env store2 msg).err ∧
    (process_record env store1 msg).trace.any is_get_effect = false := by
  cases hrun : run_export env msg.job_id msg.export_type
      (msg.format.getD "csv") (msg.filters.getD []) with
  | ok v =>
    obtain ⟨data, s3_key, content_type, file_content, download_url⟩ := v
    simp [process_record, hrun, is_get_effect]
  | error e =>
    simp [process_record, hrun, is_get_effect]

/-! ## Claim C10 -/

/-- C10 counterexample: a work item whose format field is "xml" — a value
other than "json" — is serialized as application/json, not as text/csv as
the claim states. -/
theorem c10_format_counterexample :
    (process_record env_ok store_pending1 msg_xml).trace.any
      (fun e =>
        match e with
        | Effect.s3Put _ _ _ ct => ct == "application/json"
        | _ => false) = true ∧
    (process_record env_ok store_pending1 msg_xml).trace.any
      (fun e =>
        match e with
        | Effect.s3Put _ _ _ ct => ct == "text/csv"
        | _ => false) = false := by
  decide

/-- C10 (amended): a creation request that omits format produces a job record
and a queue message with format "csv"; and the worker selects the CSV
serializer exactly when the message's format (defaulting to "csv" when
absent) equals "csv", while every other value — an unrecognized one such as
"xml" included — is serialized as JSON without being rejected. -/
theorem c10_format_amended :
    (∀ (env : ProducerEnv) (store : JobStore) (body : CreateRequest),
      body.export_type = some "users" → body.format = none →
      env.put_result = Except.ok () → env.send_result = Except.ok () →
      (getItem (create_export_job_handler env store body).1 env.job_id).map
        (fun j => j.format) = some (some "csv") ∧
      (create_export_job_handler env store body).2.1.getLast? =
        some (Effect.sqsSend export_jobs_queue_url
          { job_id := env.job_id, export_type := "users",
            format := some "csv", filters := some (body.filters.getD []) })) ∧
    (∀ (env : WorkerEnv) (job_id : String) (filters : List (String × String))
       (data : List Row) (fmt : Option String),
      env.scan_users (build_user_filter filters) = Except.ok data →
      (∀ k b ct, env.s3_put_object reports_bucket k b ct = Except.ok ()) →
      (fmt.getD "csv" = "csv" →
        run_export env job_id "users" (fmt.getD "csv") filters =
          Except.ok (data,
            "exports/" ++ "users" ++ "/" ++ job_id ++ "_" ++ env.now_key ++
              "." ++ "csv",
            "text/csv", generate_csv data "users",
            env.generate_presigned_url reports_bucket
              ("exports/" ++ "users" ++ "/" ++ job_id ++ "_" ++ env.now_key ++
                "." ++ "csv")
              presign_expiry)) ∧
      (∀ f, fmt = some f → f ≠ "csv" →
        run_export env job_id "users" f filters =
          Except.ok (data,
            "exports/" ++ "users" ++ "/" ++ job_id ++ "_" ++ env.now_key ++
              "." ++ "json",
            "application/json", generate_json data,
            env.generate_presigned_url reports_bucket
              ("exports/" ++ "users" ++ "/" ++ job_id ++ "_" ++ env.now_key ++
                "." ++ "json")
              presign_expiry))) := by
  constructor
  · intro env store body hbt hbf hput hsend
    cases hu : body.user_id with
    | none =>
      constructor
      · simp [create_export_job_handler, hbt, hbf, hput, hsend, hu,
          getItem_putItem_self]
      · simp [create_export_job_handler, hbt, hbf, hput, hsend, hu]
    | some uid =>
      constructor
      · simp [create_export_job_handler, hbt, hbf, hput, hsend, hu,
          getItem_putItem_self]
      · simp [create_export_job_handler, hbt, hbf, hput, hsend, hu]
  · intro env job_id filters data fmt hscan hput
    constructor
    · intro hd
      rw [hd]
      simp only [run_export, export_users, hscan, hput]
      rfl
    · intro f hf hne
      have hbe : (f == "csv") = false := by
        simp [hne]
      simp only [run_export, export_users, hscan, hput, hbe, Bool.false_eq_true,
        if_false]
      rfl

/-- C10 witness: the amended theorem instantiated at a format-omitting
creation request and at a worker message with format "xml". -/
theorem c10_format_witness :
    (getItem (create_export_job_handler
        { job_id := "j9", now_iso := "T", now_epoch := 0,
          put_result := Except.ok (), send_result := Except.ok () }
        ([] : JobStore) { export_type := some "users" }).1 "j9").map
      (fun j => j.format) = some (some "csv") ∧
    (match run_export env_ok "j2" "users" "xml" [] with
     | Except.ok v => some v.2.2.1
     | Except.error _ => none) = some "application/json" := by
  refine ⟨(c10_format_amended.1
    { job_id := "j9", now_iso := "T", now_epoch := 0,
      put_result := Except.ok (), send_result := Except.ok () }
    ([] : JobStore) { export_type := some "users" } rfl rfl rfl rfl).1, ?_⟩
  have h := (c10_format_amended.2 env_ok "j2" [] rows_users (some "xml") rfl
    (fun _ _ _ => rfl)).2 "xml" rfl (by decide)
  rw [h]

/-! ## Claim C6 -/

/-- C6 counterexample: job j1 first fails (the scan raises, error_message
becomes "boom"), then the redelivered item is reprocessed successfully: the
record reaches completed with all artifact fields populated, but
error_message is still present, because the update expression never removes
attributes. -/
theorem c6_stale_error_counterexample :
    (getItem
        (process_record env_ok
          (process_record env_fail store_pending1 msg_users).store
          msg_users).store "j1").map
      (fun j => (j.status, j.error_message, j.s3_key.isSome,
                 j.download_url.isSome, j.record_count)) =
      some (some "completed", some "boom", true, true, some 1) := by
  decide

/-- C6 (amended): on first-time processing — whenever the stored record does
not already carry artifact or error fields from an earlier terminal state —
a job reaching completed has artifact_location, download_descriptor and
record_count populated and error_detail absent, and a job reaching failed
has error_detail populated and the artifact fields absent; but the updates
never remove attributes, so after a redelivery the fields of the earlier
terminal state persist (see the counterexample). -/
theorem c6_terminal_fields_amended (env : WorkerEnv) (store : JobStore)
    (msg : WorkMessage)
    (hpre : ∀ j, getItem store msg.job_id = some j →
      j.s3_key = none ∧ j.download_url = none ∧ j.record_count = none ∧
      j.error_message = none) :
    ∀ j, getItem (process_record env store msg).store msg.job_id = some j →
      ((process_record env store msg).err = none →
        j.status = some "completed" ∧ j.s3_key.isSome = true ∧
        j.download_url.isSome = true ∧ j.record_count.isSome = true ∧
        j.error_message = none) ∧
      (∀ e, (process_record env store msg).err = some e →
        j.status = some "failed" ∧ j.error_message = some e ∧
        j.s3_key = none ∧ j.download_url = none ∧ j.record_count = none) := by
  have hold : ((getItem store msg.job_id).getD emptyJob).s3_key = none ∧
      ((getItem store msg.job_id).getD emptyJob).download_url = none ∧
      ((getItem store msg.job_id).getD emptyJob).record_count = none ∧
      ((getItem store msg.job_id).getD emptyJob).error_message = none := by
    cases hg : getItem store msg.job_id with
    | none => exact ⟨rfl, rfl, rfl, rfl⟩
    | some j0 => simpa using hpre j0 hg
  obtain ⟨ho1, ho2, ho3, ho4⟩ := hold
  cases hrun : run_export env msg.job_id msg.export_type
      (msg.format.getD "csv") (msg.filters.getD []) with
  | ok v =>
    obtain ⟨data, s3_key, content_type, file_content, download_url⟩ := v
    intro j hj
    simp only [process_record, hrun] at hj
    rw [getItem_update_self, getItem_update_self] at hj
    simp only [update_job_status, Option.getD_some, Option.some.injEq] at hj
    constructor
    · intro _
      rw [← hj]
      simp [apply_update, ho1, ho2, ho3, ho4]
    · intro e he
      simp [process_record, hrun] at he
  | error e0 =>
    intro j hj
    simp only [process_record, hrun] at hj
    rw [getItem_update_self, getItem_update_self] at hj
    simp only [update_job_status, Option.getD_some, Option.some.injEq] at hj
    constructor
    · intro hnone
      simp [process_record, hrun] at hnone
    · intro e he
      have he0 : e0 = e := by simpa [process_record, hrun] using he
      subst he0
      rw [← hj]
      simp [apply_update, ho1, ho2, ho3, ho4]

/-- C6 witness: the amended theorem applied to the pending job j1 whose
first processing fails with "boom". -/
theorem c6_terminal_fields_witness :
    (getItem (process_record env_fail store_pending1 msg_users).store "j1").map
      (fun j => (j.status, j.error_message)) =
      some (some "failed", some "boom") := by
  cases hg : getItem (process_record env_fail store_pending1 msg_users).store "j1" with
  | none => exact absurd hg (by decide)
  | some j =>
    have hpre : ∀ j0, getItem store_pending1 msg_users.job_id = some j0 →
        j0.s3_key = none ∧ j0.download_url = none ∧ j0.record_count = none ∧
        j0.error_message = none := by
      intro j0 hj0
      have hj0' : some pendingJob = some j0 := hj0
      cases Option.some.inj hj0'
      exact ⟨rfl, rfl, rfl, rfl⟩
    have h := (c6_terminal_fields_amended env_fail store_pending1 msg_users hpre
      j hg).2 "boom" (by decide)
    simp only [Option.map_some', Option.some.injEq]
    rw [h.1, h.2.1]

/-! ## Claim C4 -/

/-- C4: for every valid creation request, the producer's first effect is the
job-store write of the pending record, the enqueue (when the queue call
succeeds) is the following effect, and both precede the 202 response; when
the enqueue fails, the trace contains only the store write, the response is
the 500 outcome, and the store nevertheless already holds the pending
record. -/
theorem c4_write_before_enqueue (env : ProducerEnv) (store : JobStore)
    (body : CreateRequest) (et : String)
    (hval : body.export_type = some et) (het : et = "users" ∨ et = "orders")
    (hput : env.put_result = Except.ok ()) :
    ∃ item : StoredJob, item.status = some "pending" ∧
      getItem (create_export_job_handler env store body).1 env.job_id = some item ∧
      (create_export_job_handler env store body).2.1.head? =
        some (Effect.storePut env.job_id item) ∧
      (∀ e, env.send_result = Except.error e →
        (create_export_job_handler env store body).2.1 =
          [Effect.storePut env.job_id item] ∧
        (create_export_job_handler env store body).2.2.statusCode = 500) ∧
      (env.send_result = Except.ok () →
        (create_export_job_handler env store body).2.1 =
          [Effect.storePut env.job_id item,
           Effect.sqsSend export_jobs_queue_url
             { job_id := env.job_id, export_type := et,
               format := some (body.format.getD "csv"),
               filters := some (body.filters.getD []) }] ∧
        (create_export_job_handler env store body).2.2.statusCode = 202) := by
  have hcond : (et == "users" || et == "orders") = true := by
    rcases het with h | h <;> simp [h]
  cases hu : body.user_id with
  | none =>
    refine ⟨{ export_type := some et, format := some (body.format.getD "csv"),
              filters := some (body.filters.getD []), status := some "pending",
              createdAt := some env.now_iso, updatedAt := some env.now_iso,
              ttl := some (env.now_epoch + 30 * 24 * 60 * 60) }, rfl, ?_, ?_, ?_, ?_⟩
    · cases hsend : env.send_result with
      | ok u =>
        simp [create_export_job_handler, hval, hcond, hput, hu, hsend,
          getItem_putItem_self]
      | error e0 =>
        simp [create_export_job_handler, hval, hcond, hput, hu, hsend,
          getItem_putItem_self]
    · cases hsend : env.send_result with
      | ok u => simp [create_export_job_handler, hval, hcond, hput, hu, hsend]
      | error e0 => simp [create_export_job_handler, hval, hcond, hput, hu, hsend]
    · intro e he
      simp [create_export_job_handler, hval, hcond, hput, hu, he]
    · intro hsend
      simp [create_export_job_handler, hval, hcond, hput, hu, hsend]
  | some uid =>
    refine ⟨{ export_type := some et, format := some (body.format.getD "csv"),
              filters := some (body.filters.getD []), status := some "pending",
              createdAt := some env.now_iso, updatedAt := some env.now_iso,
              ttl := some (env.now_epoch + 30 * 24 * 60 * 60),
              user_id := some uid }, rfl, ?_, ?_, ?_, ?_⟩
    · cases hsend : env.send_result with
      | ok u =>
        simp [create_export_job_handler, hval, hcond, hput, hu, hsend,
          getItem_putItem_self]
      | error e0 =>
        simp [create_export_job_handler, hval, hcond, hput, hu, hsend,
          getItem_putItem_self]
    · cases hsend : env.send_result with
      | ok u => simp [create_export_job_handler, hval, hcond, hput, hu, hsend]
      | error e0 => simp [create_export_job_handler, hval, hcond, hput, hu, hsend]
    · intro e he
      simp [create_export_job_handler, hval, hcond, hput, hu, he]
    · intro hsend
      simp [create_export_job_handler, hval, hcond, hput, hu, hsend]

/-- C4 witness: the theorem applied to a concrete valid request whose
enqueue fails, and one whose enqueue succeeds. -/
theorem c4_write_before_enqueue_witness :
    (create_export_job_handler
      { job_id := "j9", now_iso := "T", now_epoch := 0,
        put_result := Except.ok (), send_result := Except.error "down" }
      ([] : JobStore) { export_type := some "orders" }).2.2.statusCode = 500 ∧
    (create_export_job_handler
      { job_id := "j9", now_iso := "T", now_epoch := 0,
        put_result := Except.ok (), send_result := Except.ok () }
      ([] : JobStore) { export_type := some "orders" }).2.2.statusCode = 202 := by
  obtain ⟨item1, _, _, _, herr, _⟩ :=
    c4_write_before_enqueue
      { job_id := "j9", now_iso := "T", now_epoch := 0,
        put_result := Except.ok (), send_result := Except.error "down" }
      ([] : JobStore) { export_type := some "orders" } "orders" rfl
      (Or.inr rfl) rfl
  obtain ⟨item2, _, _, _, _, hok⟩ :=
    c4_write_before_enqueue
      { job_id := "j9", now_iso := "T", now_epoch := 0,
        put_result := Except.ok (), send_result := Except.ok () }
      ([] : JobStore) { export_type := some "orders" } "orders" rfl
      (Or.inr rfl) rfl
  exact ⟨(herr "down" rfl).2, (hok rfl).2⟩

/-! ## Claim C9 -/

/-- A store holding only the attribute-poor record that update_job_status
creates when the worker processes a message whose job_id has no backing
record: the processing update followed by the failed update on an absent
key yields an item with status, updatedAt and error_message but without the
export_type and createdAt attributes the reader indexes directly. -/
def stranded_store : JobStore :=
  (process_record env_ok ([] : JobStore)
    { job_id := "ghost", export_type := "bogus" }).store

/-- C9 counterexample: job_id "ghost" is present in the store, yet the
status reader does not return a 200 projection: its record lacks the
directly indexed export_type and createdAt attributes, so building the
result raises KeyError and the response is the 500 outcome. -/
theorem c9_status_reader_counterexample :
    (getItem stranded_store "ghost").isSome = true ∧
    (get_export_job_handler stranded_store (some "ghost")).2.statusCode = 500 ∧
    ¬ (get_export_job_handler stranded_store (some "ghost")).2.statusCode =
        200 := by
  decide

/-- C9 (amended): for every job_id not present in the store the status
reader returns the 404 not-found outcome with only the read effect and no
mutation; for every job_id whose record carries the directly indexed base
attributes (export_type, status, createdAt, updatedAt) it returns a 200
projection shaped by the job's current state — the artifact descriptor,
record count and storage key exactly when completed, the error detail
exactly when failed; and for a present record missing one of those base
attributes the KeyError path yields the 500 outcome, again with only the
read effect. -/
theorem c9_status_reader_amended (store : JobStore) (job_id : String) :
    (getItem store job_id = none →
      (get_export_job_handler store (some job_id)).2.statusCode = 404 ∧
      (get_export_job_handler store (some job_id)).1 = [Effect.getJob job_id]) ∧
    (∀ job et st ca ua, getItem store job_id = some job →
      job.export_type = some et → job.status = some st →
      job.createdAt = some ca → job.updatedAt = some ua →
      (get_export_job_handler store (some job_id)).1 = [Effect.getJob job_id] ∧
      (get_export_job_handler store (some job_id)).2.statusCode = 200 ∧
      (get_export_job_handler store (some job_id)).2.job_id = some job_id ∧
      (get_export_job_handler store (some job_id)).2.export_type = some et ∧
      (get_export_job_handler store (some job_id)).2.format =
        some (job.format.getD "csv") ∧
      (get_export_job_handler store (some job_id)).2.status = some st ∧
      (get_export_job_handler store (some job_id)).2.createdAt = some ca ∧
      (get_export_job_handler store (some job_id)).2.updatedAt = some ua ∧
      (st = "completed" →
        (get_export_job_handler store (some job_id)).2.download_url =
          some job.download_url ∧
        (get_export_job_handler store (some job_id)).2.record_count =
          some (job.record_count.getD 0) ∧
        (get_export_job_handler store (some job_id)).2.s3_key = some job.s3_key) ∧
      (st ≠ "completed" →
        (get_export_job_handler store (some job_id)).2.download_url = none ∧
        (get_export_job_handler store (some job_id)).2.record_count = none ∧
        (get_export_job_handler store (some job_id)).2.s3_key = none) ∧
      (st = "failed" →
        (get_export_job_handler store (some job_id)).2.error_message =
          some (job.error_message.getD "Unknown error")) ∧
      (st ≠ "failed" →
        (get_export_job_handler store (some job_id)).2.error_message = none)) ∧
    (∀ job, getItem store job_id = some job →
      (job.export_type = none ∨ job.status = none ∨ job.createdAt = none ∨
       job.updatedAt = none) →
      (get_export_job_handler store (some job_id)).2.statusCode = 500 ∧
      (get_export_job_handler store (some job_id)).1 = [Effect.getJob job_id]) := by
  refine ⟨?_, ?_, ?_⟩
  · intro h
    simp [get_export_job_handler, h]
  · intro job et st ca ua hj het hst hca hua
    by_cases hc : st = "completed"
    · subst hc
      simp [get_export_job_handler, hj, het, hst, hca, hua]
    · by_cases hf : st = "failed"
      · subst hf
        simp [get_export_job_handler, hj, het, hst, hca, hua, hc]
      · simp [get_export_job_handler, hj, het, hst, hca, hua, hc, hf]
  · intro job hj hmiss
    cases het : job.export_type with
    | none => simp [get_export_job_handler, hj, het, get_job_error_response]
    | some et =>
      cases hst : job.status with
      | none => simp [get_export_job_handler, hj, het, hst, get_job_error_response]
      | some st =>
        cases hca : job.createdAt with
        | none =>
          simp [get_export_job_handler, hj, het, hst, hca, get_job_error_response]
        | some ca =>
          cases hua : job.updatedAt with
          | none =>
            simp [get_export_job_handler, hj, het, hst, hca, hua,
              get_job_error_response]
          | some ua =>
            rcases hmiss with h | h | h | h <;> simp_all

/-- C9 witness: the amended theorem applied to the completed job j1, to a
missing key, and to the stranded attribute-poor record "ghost". -/
theorem c9_status_reader_amended_witness :
    (get_export_job_handler store_completed1 (some "j1")).2.statusCode = 200 ∧
    (get_export_job_handler store_completed1 (some "j1")).2.download_url =
      some (some "https://signed/old") ∧
    (get_export_job_handler store_completed1 (some "missing")).2.statusCode =
      404 ∧
    (get_export_job_handler stranded_store (some "ghost")).2.statusCode =
      500 := by
  have h1 := (c9_status_reader_amended store_completed1 "j1").2.1 completedJob
    "users" "completed" "T0" "T0" (by decide) rfl rfl rfl rfl
  have h2 := (c9_status_reader_amended store_completed1 "missing").1 (by decide)
  have h3 := (c9_status_reader_amended stranded_store "ghost").2.2
    { status := some "failed", updatedAt := some "2026-01-01T00:00:00+00:00",
      error_message := some "Unknown export type: bogus" }
    (by decide) (Or.inl rfl)
  exact ⟨h1.2.1, (h1.2.2.2.2.2.2.2.2.1 rfl).1, h2.1, h3.1⟩

end HyAws
